import Mathlib

set_option maxHeartbeats 1000000

/-!
Verification development for the MDS daemon lifecycle and membership
controller of src/mds/MDS.cc: a shallow embedding of the controller state,
the cluster-map handler `handle_mds_map`, the dispatch gate `ms_dispatch`,
the core-message classifier `handle_core_message`, the one-shot shutdown
`suicide`, the admin command surface, and the journal-flush command,
together with theorems about them.

Modelling conventions:
 - C++ machine integers are modelled as `Int`/`Nat`; `epoch_t` (uint32)
   conversions are taken modulo 2^32 where a conversion occurs.
 - `respawn()` replaces the process image and never returns; it is modelled
   as the terminal outcome `Outcome.respawned` of a handler, with the state
   frozen at the point of the call and no later effect performed.
 - failed `assert(...)` is modelled as `Option.none` (for functions whose
   asserts can fire) or as the terminal outcome `Outcome.panicked`.
 - effects on external collaborators (messenger mark-down, beacon sends,
   cache/balancer/migrator notifications, waiter drain) carry no controller
   state in the sense of this model and are either recorded as `FanCall`
   entries or omitted; each omission is noted at the definition it concerns.
-/

/-- Modelled from the spec: the sentinel rank value meaning this daemon holds
no rank (`MDS_RANK_NONE`; MDSMap.h is not under src/). -/
def MDS_RANK_NONE : Int := -1

/-- Modelled from the spec: null daemon-state value (MDSMap.h is not under
src/); the code's truthiness test `if (standby_type)` forces it to be 0. -/
def STATE_NULL : Int := 0

/-- Modelled from the spec: the dne daemon state (ceph_fs.h is not under src/). -/
def STATE_DNE : Int := 0

/-- Modelled from the spec: the stopped daemon state. -/
def STATE_STOPPED : Int := -1

/-- Modelled from the spec: the boot daemon state. -/
def STATE_BOOT : Int := -4

/-- Modelled from the spec: the standby daemon state. -/
def STATE_STANDBY : Int := -5

/-- Modelled from the spec: the creating daemon state. -/
def STATE_CREATING : Int := -6

/-- Modelled from the spec: the starting daemon state. -/
def STATE_STARTING : Int := -7

/-- Modelled from the spec: the standby-replay daemon state. -/
def STATE_STANDBY_REPLAY : Int := -8

/-- Modelled from the spec: the oneshot-replay daemon state. -/
def STATE_ONESHOT_REPLAY : Int := -9

/-- Modelled from the spec: the replay daemon state; the spec requires the
recovery sequence replay, resolve, reconnect, rejoin, clientreplay, active,
stopping to be contiguous ascending values (its oldstate+1 transition rule). -/
def STATE_REPLAY : Int := 8

/-- Modelled from the spec: the resolve daemon state. -/
def STATE_RESOLVE : Int := 9

/-- Modelled from the spec: the reconnect daemon state. -/
def STATE_RECONNECT : Int := 10

/-- Modelled from the spec: the rejoin daemon state. -/
def STATE_REJOIN : Int := 11

/-- Modelled from the spec: the clientreplay daemon state. -/
def STATE_CLIENTREPLAY : Int := 12

/-- Modelled from the spec: the active daemon state. -/
def STATE_ACTIVE : Int := 13

/-- Modelled from the spec: the stopping daemon state. -/
def STATE_STOPPING : Int := 14

/-- Modelled from the spec: entity-type bit for monitors (msgr headers are
not under src/; the dispatcher checks the sender type against a bit mask). -/
def ENTITY_MON : Nat := 1

/-- Modelled from the spec: entity-type bit for MDS daemons. -/
def ENTITY_MDS : Nat := 2

/-- Modelled from the spec: entity-type bit for OSD daemons. -/
def ENTITY_OSD : Nat := 4

/-- Modelled from the spec: entity-type bit for clients. -/
def ENTITY_CLIENT : Nat := 8

/-- Modelled from the spec: the POSIX errno value for a read-only filesystem
(errno.h is not under src/; `_command_flush_journal` returns `-EROFS`). -/
def EROFS : Int := 30

/-- Lookup in the peer-epoch record `peer_mdsmap_epoch` (a C++
`map<mds_rank_t, epoch_t>` whose `operator[]` default-constructs 0 for an
absent rank). -/
def peerGet (l : List (Int × Nat)) (r : Int) : Nat :=
  match l.find? (fun p => p.1 == r) with
  | some p => p.2
  | none => 0

/-- Update of the peer-epoch record at one rank. -/
def peerSet (l : List (Int × Nat)) (r : Int) (e : Nat) : List (Int × Nat) :=
  if (l.find? (fun p => p.1 == r)).isSome then
    l.map (fun p => if p.1 == r then (r, e) else p)
  else
    (r, e) :: l

/-- The controller state of the MDS daemon: the fields of MDS/MDSRank that
the claims concern (MDS.cc constructor, lines 80-143 initialize them). -/
structure MDSState where
  mdsmapEpoch : Nat
  whoami : Int
  state : Int
  lastState : Int
  incarnation : Nat
  wantState : Int
  standbyType : Int
  stopping : Bool
  osdEpochBarrier : Nat
  heartbeatResets : Nat
  peerMdsmapEpoch : List (Int × Nat)
  deriving DecidableEq

/-- Ambient environment of a handler invocation: the daemon's global id and
name-enforcement configuration, and the object-store client's current map
epoch (read at MDS.cc:1872 and MDS.cc:200). -/
structure Env where
  globalId : Nat
  enforceUniqueName : Bool
  osdEpoch : Nat
  deriving DecidableEq

/-- Modelled from the spec: the decoded cluster-map queries that
`handle_mds_map` performs (MDSMap.h is not under src/): the map's epoch and
compat-writability, the state/incarnation/rank/standby-for-rank recorded for
this daemon's global id, and the global id of the map entry carrying this
daemon's name (`find_mds_gid_by_name`; `none` models gid 0 / not found). -/
structure MDSMapView where
  epoch : Nat
  compatWritable : Bool
  myState : Int
  myInc : Nat
  myRank : Int
  myStandbyForRank : Int
  sameNameGid : Option Nat
  deriving DecidableEq

/-- An MMDSMap message: its own epoch field, the source entity (rank when the
sender is an MDS), and the encoded map it carries, given as the view of the
queries performed on it after decoding. -/
structure MMDSMapMsg where
  epoch : Nat
  sourceMdsRank : Option Int
  view : MDSMapView
  deriving DecidableEq

/-- A message epoch agrees with the epoch of the encoded map it carries
(true of every MMDSMap the monitor or a peer constructs). -/
def msgWF (m : MMDSMapMsg) : Prop := m.epoch = m.view.epoch

/-- The state effect of the body of MDS::suicide (MDS.cc:1965-1967), past
its assert: set the stopping latch and wanted=dne.  The terminal beacon and
subsystem shutdowns touch only external collaborators and are not part of
the modelled state. -/
def suicideStep (s : MDSState) : MDSState :=
  { s with stopping := true, wantState := STATE_DNE }

/-- MDS::suicide (MDS.cc:1958-2017): asserts the stopping latch is clear
(`assert(stopping == false)`, modelled as `none` when it fires), then runs
`suicideStep`. -/
def suicide (s : MDSState) : Option MDSState :=
  if s.stopping = true then none
  else some (suicideStep s)

/-- MDS::handle_signal (MDS.cc:1928-1939): under the lock, return if already
stopping, else call suicide (the guard makes suicide's assert unreachable,
so the call is its unconditional body `suicideStep`). -/
def handle_signal (s : MDSState) : MDSState :=
  if s.stopping = true then s
  else suicideStep s

/-- Modelled from the spec: heartbeat_reset (MDSRank is not under src/)
touches only the heartbeat handle; modelled as a reset counter. -/
def heartbeat_reset (s : MDSState) : MDSState :=
  { s with heartbeatResets := s.heartbeatResets + 1 }

/-- Modelled from the spec: set_want_state (MDSRank is not under src/)
records the wanted state that beacons advertise. -/
def set_want_state (s : MDSState) (w : Int) : MDSState :=
  { s with wantState := w }

/-- Modelled from the spec: request_state (MDSRank is not under src/) sets
the wanted state and sends a beacon (the send is external). -/
def request_state (s : MDSState) (w : Int) : MDSState :=
  set_want_state s w

/-- Modelled from the spec: set_osd_epoch_barrier (MDSRank is not under
src/); the spec's command table says `set barrier`, a plain assignment. -/
def set_osd_epoch_barrier (s : MDSState) (e : Nat) : MDSState :=
  { s with osdEpochBarrier := e }

/-- Conversion of a C++ int64 to epoch_t (uint32): reduction modulo 2^32. -/
def epoch_t_of_int (t : Int) : Nat := (t % ((2:Int) ^ 32)).toNat

/-- The `osdmap barrier` branch of MDS::asok_command (MDS.cc:229-248): any
command other than `status` bails when `whoami < 0` (MDS.cc:213); otherwise
the barrier is set to the given target epoch under the lock.  The subsequent
wait for the object-store map only blocks and is not modelled. -/
def asok_osdmap_barrier (s : MDSState) (target : Int) : MDSState :=
  if s.whoami < 0 then s
  else set_osd_epoch_barrier s (epoch_t_of_int target)

/-- Rank computation of MDS::handle_mds_map (MDS.cc:1584-1590): the rank the
map assigns to this gid, replaced by the standby-for-rank field when the
map lists us with rank none in a standby-replay or oneshot-replay state. -/
def computedRank (v : MDSMapView) : Int :=
  if v.myRank = MDS_RANK_NONE ∧
      (v.myState = STATE_STANDBY_REPLAY ∨ v.myState = STATE_ONESHOT_REPLAY) then
    v.myStandbyForRank
  else v.myRank

/-- The state-transition validity check of MDS::handle_mds_map
(MDS.cc:1602-1623): performed only while holding a rank and when the state
changed; replay may go only to resolve or reconnect; rejoin only to active,
clientreplay or stopped; a state in [reconnect, active) only to oldstate+1;
every other origin is unconstrained. -/
def state_transition_valid (who oldstate newstate : Int) : Bool :=
  if who ≠ MDS_RANK_NONE ∧ newstate ≠ oldstate then
    if oldstate = STATE_REPLAY then
      if newstate ≠ STATE_RESOLVE ∧ newstate ≠ STATE_RECONNECT then false else true
    else if oldstate = STATE_REJOIN then
      if newstate ≠ STATE_ACTIVE ∧ newstate ≠ STATE_CLIENTREPLAY ∧
          newstate ≠ STATE_STOPPED then false
      else true
    else if STATE_RECONNECT ≤ oldstate ∧ oldstate < STATE_ACTIVE then
      if newstate ≠ oldstate + 1 then false else true
    else true
  else true

/-- The name-race test of MDS.cc:1673-1686: unique-name enforcement found a
map entry with this daemon's name whose global id is larger than ours. -/
def name_race_lost (env : Env) (v : MDSMapView) : Bool :=
  match v.sameNameGid with
  | some g => if env.globalId < g then true else false
  | none => false

/-- Data-plane and beacon calls that `handle_mds_map` fans out (their bodies
live in other translation units and are recorded, not interpreted). -/
inductive FanCall where
  | activeStart
  | replayStart
  | resolveStart
  | reconnectStart
  | rejoinStart
  | clientreplayStart
  | bootCreate
  | bootStart
  | stoppingStart
  | recoveryDone (oldstate : Int)
  | requestState (w : Int)
  | beaconSend
  deriving DecidableEq

/-- How an invocation of `handle_mds_map` ends: normal return (`proceeded`),
discarded stale map, process replacement by respawn, shutdown by suicide, or
a failed assertion. -/
inductive Outcome where
  | proceeded
  | discarded
  | respawned
  | suicided
  | panicked
  deriving DecidableEq

/-- Result of `handle_mds_map`: the controller state at return (or at the
point the process was replaced / the assert fired), the outcome, whether the
function released the message (`m->put()` at MDS.cc:1550 or MDS.cc:1881),
and the fan-out calls it issued. -/
structure HandleResult where
  st : MDSState
  outcome : Outcome
  msgPut : Bool
  calls : List FanCall
  deriving DecidableEq

/-- Peer-freshness tracking of MDS.cc:1538-1544: when the sender is an MDS
whose recorded epoch is below the message's, record the message's epoch.
This happens before the staleness check at MDS.cc:1547. -/
def peerTrack (s : MDSState) (m : MMDSMapMsg) : MDSState :=
  { s with peerMdsmapEpoch :=
      match m.sourceMdsRank with
      | some r =>
          if peerGet s.peerMdsmapEpoch r < m.epoch then
            peerSet s.peerMdsmapEpoch r m.epoch
          else s.peerMdsmapEpoch
      | none => s.peerMdsmapEpoch }

/-- Tail of MDS::handle_mds_map on every path that reaches the end of the
function (MDS.cc:1868-1878): when active, set the OSD epoch barrier to the
object-store client's current map epoch; then the message is put.  The
peer-diff notifications, balancer invitation and map-epoch waiter drain
(MDS.cc:1757-1866) touch only external collaborators and fields outside this
model and are omitted. -/
def finish_tail (env : Env) (s : MDSState) (cs : List FanCall) : HandleResult :=
  let s := { s with osdEpochBarrier :=
               if s.state = STATE_ACTIVE then env.osdEpoch else s.osdEpochBarrier }
  ⟨s, Outcome.proceeded, true, cs⟩

/-- The recovery-completion and entry-point calls the state-change fan-out
of MDS::handle_mds_map issues (MDS.cc:1727-1753) for a transition from
oldstate to newstate, in order: recovery_done when becoming active or
clientreplay out of creating, rejoin or reconnect, then the entry point
selected by the is_* chain for the new state. -/
def fan_calls (oldstate newstate : Int) : List FanCall :=
  let cs :=
    if (newstate = STATE_ACTIVE ∨ newstate = STATE_CLIENTREPLAY) ∧
        (oldstate = STATE_CREATING ∨ oldstate = STATE_REJOIN ∨
          oldstate = STATE_RECONNECT) then
      [FanCall.recoveryDone oldstate]
    else []
  if newstate = STATE_ACTIVE then cs ++ [FanCall.activeStart]
  else if newstate = STATE_REPLAY ∨ newstate = STATE_STANDBY_REPLAY ∨
      newstate = STATE_ONESHOT_REPLAY then
    cs ++ [FanCall.replayStart]
  else if newstate = STATE_RESOLVE then cs ++ [FanCall.resolveStart]
  else if newstate = STATE_RECONNECT then cs ++ [FanCall.reconnectStart]
  else if newstate = STATE_REJOIN then cs ++ [FanCall.rejoinStart]
  else if newstate = STATE_CLIENTREPLAY then cs ++ [FanCall.clientreplayStart]
  else if newstate = STATE_CREATING then cs ++ [FanCall.bootCreate]
  else if newstate = STATE_STARTING then cs ++ [FanCall.bootStart]
  else if newstate = STATE_STOPPING then cs ++ [FanCall.stoppingStart]
  else cs

/-- State-change fan-out of MDS::handle_mds_map (MDS.cc:1717-1755): on a
state change, record the wanted state; a daemon leaving standby-replay
asserts the new state is replay and dispatches no entry point; entering
stopping asserts the old state was active (the assert sits before
stopping_start, and no recovery_done call precedes it since stopping is
neither active nor clientreplay); otherwise the calls of `fan_calls` are
issued. -/
def fan_out (env : Env) (s : MDSState) (oldstate newstate : Int) : HandleResult :=
  if newstate ≠ oldstate then
    let s := set_want_state s newstate
    if oldstate = STATE_STANDBY_REPLAY then
      if newstate ≠ STATE_REPLAY then ⟨s, Outcome.panicked, false, []⟩
      else finish_tail env s []
    else if newstate = STATE_STOPPING ∧ oldstate ≠ STATE_ACTIVE then
      ⟨s, Outcome.panicked, false, []⟩
    else finish_tail env s (fan_calls oldstate newstate)
  else finish_tail env s []

/-- The standby branch of MDS::handle_mds_map (MDS.cc:1645-1653): record
want=standby, and when a standby type is wanted, request it. -/
def standby_branch (s : MDSState) : HandleResult :=
  let s := set_want_state s STATE_STANDBY
  if s.standbyType ≠ STATE_NULL then
    ⟨request_state s s.standbyType, Outcome.proceeded, true,
      [FanCall.requestState s.standbyType]⟩
  else ⟨s, Outcome.proceeded, true, []⟩

/-- The rank-none cases of MDS::handle_mds_map (MDS.cc:1663-1693): when
wanted=standby, reset to boot; when wanted=boot, passively await a future
map; otherwise suicide when unique-name enforcement finds a same-name entry
with a larger global id, and respawn in every other case. -/
def rank_none_branch (env : Env) (v : MDSMapView) (s : MDSState) : HandleResult :=
  if s.wantState = STATE_STANDBY then
    ⟨set_want_state { s with state := STATE_BOOT } STATE_BOOT,
      Outcome.proceeded, true, []⟩
  else if s.wantState = STATE_BOOT then
    ⟨s, Outcome.proceeded, true, []⟩
  else if env.enforceUniqueName = true ∧ name_race_lost env v = true then
    if s.stopping = true then ⟨s, Outcome.panicked, false, []⟩
    else ⟨suicideStep s, Outcome.suicided, true, []⟩
  else ⟨s, Outcome.respawned, false, []⟩

/-- Body of MDS::handle_mds_map after the staleness check (MDS.cc:1554-1883):
remember old rank and state, install the decoded map, suicide if its compat
set is not writable, recompute identity, respawn on a rank transition away
from a held rank, respawn on an invalid state transition, handle the
standby / standby-replay-redirect / rank-none special cases, and otherwise
fan out the state change.  The messenger rename (MDS.cc:1696-1706), objecter
incarnation update and debug cache dump are external and omitted. -/
def handle_fresh (env : Env) (s : MDSState) (m : MMDSMapMsg) : HandleResult :=
  let oldwhoami := s.whoami
  let oldstate := s.state
  let s1 := { s with mdsmapEpoch := m.view.epoch }
  if m.view.compatWritable = false then
    if s1.stopping = true then ⟨s1, Outcome.panicked, false, []⟩
    else ⟨suicideStep s1, Outcome.suicided, true, []⟩
  else
    let newstate := m.view.myState
    let newwhoami := computedRank m.view
    let s2 := { s1 with state := newstate, incarnation := m.view.myInc,
                        whoami := newwhoami }
    if newwhoami ≠ oldwhoami ∧ oldwhoami ≠ MDS_RANK_NONE then
      ⟨s2, Outcome.respawned, false, []⟩
    else if state_transition_valid newwhoami oldstate newstate = false then
      ⟨s2, Outcome.respawned, false, []⟩
    else
      let s3 := { s2 with lastState :=
                    if newstate ≠ oldstate then oldstate else s2.lastState }
      if newstate = STATE_STANDBY then standby_branch s3
      else if newstate = STATE_STANDBY_REPLAY ∧ s3.standbyType ≠ STATE_NULL ∧
          s3.standbyType ≠ STATE_STANDBY_REPLAY then
        ⟨{ set_want_state s3 s3.standbyType with state := oldstate },
          Outcome.proceeded, true, [FanCall.beaconSend]⟩
      else if newwhoami = MDS_RANK_NONE then rank_none_branch env m.view s3
      else fan_out env s3 oldstate newstate

/-- MDS::handle_mds_map (MDS.cc:1532-1883): record the sender's advertised
epoch for peer-freshness tracking, discard (and put) the message when its
epoch is not newer than the installed map's, and otherwise process the new
map. -/
def handle_mds_map (env : Env) (s0 : MDSState) (m : MMDSMapMsg) : HandleResult :=
  let s := peerTrack s0 m
  if m.epoch ≤ s.mdsmapEpoch then ⟨s, Outcome.discarded, true, []⟩
  else handle_fresh env s m

/-- The kinds of message MDS::handle_core_message (MDS.cc:2111-2155)
distinguishes. -/
inductive CoreMsgKind where
  | monMap
  | mdsMap
  | monCommand
  | command
  | osdMap
  | other
  deriving DecidableEq

/-- Result of classifying one message in handle_core_message: the function's
return value, whether an ALLOW_MESSAGES_FROM sender-type check was executed
for it, whether that check dropped it, and whether it went on to a handler. -/
structure CoreResult where
  handled : Bool
  allowChecked : Bool
  droppedByAllow : Bool
  forwardedToHandler : Bool
  deriving DecidableEq

/-- Modelled from the spec: the ALLOW_MESSAGES_FROM macro (MDS.h is not
under src/) drops the message unless the sender's entity type intersects the
caller-provided allow-set, given as a bit mask. -/
def allow_denies (allowMask peerType : Nat) : Bool :=
  Nat.land peerType allowMask == 0

/-- MDS::handle_core_message (MDS.cc:2111-2155).  The monitor-map case puts
the message with no further handler; the cluster-map, monitor-command and
object-store-map cases run an ALLOW_MESSAGES_FROM check and then their
handler; the command-message case (MDS.cc:2132-2134) runs NO sender-type
check before handle_command; anything else is not handled here. -/
def handle_core_message (peerType : Nat) (k : CoreMsgKind) : CoreResult :=
  match k with
  | CoreMsgKind.monMap =>
      if allow_denies ENTITY_MON peerType = true then ⟨true, true, true, false⟩
      else ⟨true, true, false, false⟩
  | CoreMsgKind.mdsMap =>
      if allow_denies (Nat.lor ENTITY_MON ENTITY_MDS) peerType = true then
        ⟨true, true, true, false⟩
      else ⟨true, true, false, true⟩
  | CoreMsgKind.monCommand =>
      if allow_denies ENTITY_MON peerType = true then ⟨true, true, true, false⟩
      else ⟨true, true, false, true⟩
  | CoreMsgKind.command => ⟨true, false, false, true⟩
  | CoreMsgKind.osdMap =>
      if allow_denies (Nat.lor ENTITY_MON ENTITY_OSD) peerType = true then
        ⟨true, true, true, false⟩
      else ⟨true, true, false, true⟩
  | CoreMsgKind.other => ⟨false, false, false, false⟩

/-- A message as seen by the dispatch gate: its core kind, the sender's
entity type, and whether the rank-level dispatcher (out of scope, per the
spec) would accept it if it were delegated there. -/
structure DispatchMsg where
  kind : CoreMsgKind
  peerType : Nat
  rankWouldAccept : Bool
  deriving DecidableEq

/-- Result of the dispatch gate: the controller state, ms_dispatch's return
value, whether ms_dispatch itself put the message (the wanted=dne discard),
and whether the message reached handle_core_message / handle_rank_message. -/
structure DispatchResult where
  st : MDSState
  ret : Bool
  msgPut : Bool
  reachedCore : Bool
  reachedRank : Bool
  deriving DecidableEq

/-- MDS::ms_dispatch (MDS.cc:2064-2088): under the lock, return false while
stopping (before any heartbeat reset); then reset the heartbeat; then, when
wanted=dne, put and discard the message; otherwise try handle_core_message
and fall back to handle_rank_message.  The payload effects of the core
handlers are modelled by their dedicated functions. -/
def ms_dispatch (s : MDSState) (m : DispatchMsg) : DispatchResult :=
  if s.stopping = true then ⟨s, false, false, false, false⟩
  else
    let s := heartbeat_reset s
    if s.wantState = STATE_DNE then ⟨s, true, true, false, false⟩
    else
      let core := handle_core_message m.peerType m.kind
      if core.handled = true then ⟨s, true, false, true, false⟩
      else ⟨s, m.rankWouldAccept, false, true, true⟩

/-- The controller operations that touch the modelled state, for stating
properties over arbitrary operation sequences. -/
inductive Op where
  | opSuicide
  | opSignal
  | opDispatch (m : DispatchMsg)
  | opMdsMap (env : Env) (m : MMDSMapMsg)
  | opAsokBarrier (t : Int)

/-- One controller operation applied to the state; `none` is an assertion
failure. -/
def step (s : MDSState) : Op → Option MDSState
  | Op.opSuicide => suicide s
  | Op.opSignal => some (handle_signal s)
  | Op.opDispatch m => some (ms_dispatch s m).st
  | Op.opMdsMap env m => some (handle_mds_map env s m).st
  | Op.opAsokBarrier t => some (asok_osdmap_barrier s t)

/-- The journal operations `_command_flush_journal` performs on the data
plane (bodies external to MDS.cc; recorded, not interpreted). -/
inductive JournalOp where
  | startNewSegment
  | flushOp
  | trimAllOp
  | trimExpiredSegments
  | writeHeadOp
  deriving DecidableEq

/-- The human-readable reason attached to a journal-flush error
(MDS.cc:440, 457, 466, 512: the text names the failing phase). -/
inductive FlushReason where
  | flushingJournal
  | trimmingLog
  | writingHeader
  deriving DecidableEq

/-- Environment of one `_command_flush_journal` run: the cache's read-only
flag, whether the daemon is active, and the integer results the awaited
steps and trim_all complete with (external completions). -/
structure FlushEnv where
  readonly : Bool
  active : Bool
  flushWaitResult : Int
  clearWaitResult : Int
  trimAllResult : Int
  hasExpiringSegments : Bool
  expiryWaitResult : Int
  writeHeadResult : Int
  deriving DecidableEq

/-- Result of `_command_flush_journal`: the returned code, the reason tag of
the error message written to the caller's stream (none when no message was
written), and the journal operations performed. -/
structure FlushResult where
  code : Int
  reason : Option FlushReason
  ops : List JournalOp
  deriving DecidableEq

/-- MDS::_command_flush_journal (MDS.cc:409-519): -EROFS when the cache is
read-only; 0 and no journal operation when not active; otherwise seal a new
segment, flush and await safe twice (each nonzero wait result is returned
with a flushing-journal message), trim_all (nonzero returned with a
trimming-log message), await expiry of the expiring segments with
`assert(r == 0)` (modelled as `none` when a nonzero result fires it), trim
the expired segments, and write the journal header (nonzero wait result
returned with a writing-header message). -/
def command_flush_journal (e : FlushEnv) : Option FlushResult :=
  if e.readonly = true then some ⟨-EROFS, none, []⟩
  else if e.active = false then some ⟨0, none, []⟩
  else
    let ops := [JournalOp.startNewSegment, JournalOp.flushOp]
    if e.flushWaitResult ≠ 0 then
      some ⟨e.flushWaitResult, some FlushReason.flushingJournal, ops⟩
    else if e.clearWaitResult ≠ 0 then
      some ⟨e.clearWaitResult, some FlushReason.flushingJournal, ops⟩
    else
      let ops := ops ++ [JournalOp.trimAllOp]
      if e.trimAllResult ≠ 0 then
        some ⟨e.trimAllResult, some FlushReason.trimmingLog, ops⟩
      else if e.hasExpiringSegments = true ∧ e.expiryWaitResult ≠ 0 then none
      else
        let ops := ops ++ [JournalOp.trimExpiredSegments, JournalOp.writeHeadOp]
        if e.writeHeadResult ≠ 0 then
          some ⟨e.writeHeadResult, some FlushReason.writingHeader, ops⟩
        else some ⟨0, none, ops⟩

/-- Modelled from the spec: the admin socket registry (AdminSocket is not
under src/): the set of registered command strings, and whether the hook
object the MDS registered is still alive. -/
structure AdminSocketState where
  registered : List String
  hookAlive : Bool
  deriving DecidableEq

/-- Modelled from the spec: AdminSocket::register_command fails (nonzero,
here `none`, since set_up_admin_socket asserts r == 0) when the command
string is already registered. -/
def registerCmd (st : AdminSocketState) (c : String) : Option AdminSocketState :=
  if c ∈ st.registered then none
  else some { st with registered := st.registered ++ [c] }

/-- Modelled from the spec: AdminSocket::unregister_command removes the
command string's registration. -/
def unregisterCmd (st : AdminSocketState) (c : String) : AdminSocketState :=
  { st with registered := st.registered.filter (fun d => d ≠ c) }

/-- The seventeen command strings MDS::set_up_admin_socket registers, in
source order (MDS.cc:735-822). -/
def setUpCommands : List String :=
  ["status", "dump_ops_in_flight", "ops", "dump_historic_ops", "scrub_path",
   "flush_path", "export dir", "dump cache", "session evict", "osdmap barrier",
   "session ls", "flush journal", "force_readonly", "get subtrees",
   "dirfrag split", "dirfrag merge", "dirfrag ls"]

/-- The ten command strings MDS::clean_up_admin_socket unregisters, in
source order (MDS.cc:828-837). -/
def cleanUpCommands : List String :=
  ["status", "dump_ops_in_flight", "ops", "dump_historic_ops", "scrub_path",
   "flush_path", "session evict", "session ls", "flush journal",
   "force_readonly"]

/-- MDS::set_up_admin_socket (MDS.cc:730-823): create the hook and register
the seventeen command strings, in source order, each under assert(r == 0). -/
def set_up_admin_socket (st : AdminSocketState) : Option AdminSocketState :=
  setUpCommands.foldlM registerCmd { st with hookAlive := true }

/-- MDS::clean_up_admin_socket (MDS.cc:825-840): unregister ten command
strings, then delete the hook. -/
def clean_up_admin_socket (st : AdminSocketState) : AdminSocketState :=
  let st := cleanUpCommands.foldl unregisterCmd st
  { st with hookAlive := false }

/-- A baseline controller state for concrete witnesses: freshly booted
daemon with an installed map at epoch 5. -/
def baseState : MDSState :=
  { mdsmapEpoch := 5, whoami := -1, state := -4, lastState := -4,
    incarnation := 0, wantState := -4, standbyType := 0, stopping := false,
    osdEpochBarrier := 0, heartbeatResets := 0, peerMdsmapEpoch := [] }

/-- A sample environment for concrete witnesses. -/
def envA : Env := { globalId := 100, enforceUniqueName := true, osdEpoch := 7 }

/-- A stale cluster-map message (epoch 4, below baseState's installed epoch
5) from MDS peer rank 2, for the C1 counterexample. -/
def m_stale : MMDSMapMsg :=
  { epoch := 4, sourceMdsRank := some 2,
    view := { epoch := 4, compatWritable := true, myState := -4, myInc := 0,
              myRank := -1, myStandbyForRank := -1, sameNameGid := none } }

/-- A state holding rank 0 with OSD epoch barrier 5, for the C4
counterexample. -/
def s_barrier : MDSState := { baseState with whoami := 0, osdEpochBarrier := 5 }

/-- A state whose stopping latch is set and wanted state is dne (the state
`suicide` leaves behind), for the C5 witness and C6 counterexample. -/
def s_stopping : MDSState := { baseState with stopping := true, wantState := 0 }

/-- A serving state whose wanted state is dne, for the C6 witness. -/
def s_dne : MDSState := { baseState with wantState := 0 }

/-- A monitor-map message from a monitor, for dispatch witnesses. -/
def m_disp : DispatchMsg :=
  { kind := CoreMsgKind.monMap, peerType := 1, rankWouldAccept := false }

/-- A flush environment whose cache is read-only, for the C8 witness. -/
def flushEnvRO : FlushEnv :=
  { readonly := true, active := true, flushWaitResult := 0, clearWaitResult := 0,
    trimAllResult := 0, hasExpiringSegments := false, expiryWaitResult := 0,
    writeHeadResult := 0 }

/-- All journal operations of a fully successful flush, in order. -/
def allFlushOps : List JournalOp :=
  [JournalOp.startNewSegment, JournalOp.flushOp, JournalOp.trimAllOp,
   JournalOp.trimExpiredSegments, JournalOp.writeHeadOp]

/-- A state holding rank 0 in the active state, for the C2 witness. -/
def s_rank0 : MDSState := { baseState with whoami := 0, state := 13 }

/-- A fresh map moving this daemon to rank 1 while it holds rank 0, for the
C2 witness. -/
def m_rankchange : MMDSMapMsg :=
  { epoch := 6, sourceMdsRank := none,
    view := { epoch := 6, compatWritable := true, myState := 13, myInc := 1,
              myRank := 1, myStandbyForRank := -1, sameNameGid := none } }

/-- A state holding rank 0 in the replay state, for the C3 witness. -/
def s_replay : MDSState := { baseState with whoami := 0, state := 8 }

/-- A fresh map keeping rank 0 but jumping straight from replay to active
(the spec's scenario S4), for the C3 witness. -/
def m_invalid : MMDSMapMsg :=
  { epoch := 6, sourceMdsRank := none,
    view := { epoch := 6, compatWritable := true, myState := 13, myInc := 1,
              myRank := 0, myStandbyForRank := -1, sameNameGid := none } }

/-- A fresh map that drops this daemon (rank none, not listed) while another
daemon with the same name and a larger global id (200 > envA's 100) is in
the map, for the C9 witness. -/
def m_kicked : MMDSMapMsg :=
  { epoch := 6, sourceMdsRank := none,
    view := { epoch := 6, compatWritable := true, myState := 0, myInc := 0,
              myRank := -1, myStandbyForRank := -1, sameNameGid := some 200 } }

theorem peerTrack_mdsmapEpoch (s : MDSState) (m : MMDSMapMsg) :
    (peerTrack s m).mdsmapEpoch = s.mdsmapEpoch := rfl

theorem peerTrack_whoami (s : MDSState) (m : MMDSMapMsg) :
    (peerTrack s m).whoami = s.whoami := rfl

theorem peerTrack_state (s : MDSState) (m : MMDSMapMsg) :
    (peerTrack s m).state = s.state := rfl

theorem peerTrack_lastState (s : MDSState) (m : MMDSMapMsg) :
    (peerTrack s m).lastState = s.lastState := rfl

theorem peerTrack_incarnation (s : MDSState) (m : MMDSMapMsg) :
    (peerTrack s m).incarnation = s.incarnation := rfl

theorem peerTrack_wantState (s : MDSState) (m : MMDSMapMsg) :
    (peerTrack s m).wantState = s.wantState := rfl

theorem peerTrack_standbyType (s : MDSState) (m : MMDSMapMsg) :
    (peerTrack s m).standbyType = s.standbyType := rfl

theorem peerTrack_stopping (s : MDSState) (m : MMDSMapMsg) :
    (peerTrack s m).stopping = s.stopping := rfl

theorem peerTrack_osdEpochBarrier (s : MDSState) (m : MMDSMapMsg) :
    (peerTrack s m).osdEpochBarrier = s.osdEpochBarrier := rfl

theorem peerTrack_heartbeatResets (s : MDSState) (m : MMDSMapMsg) :
    (peerTrack s m).heartbeatResets = s.heartbeatResets := rfl

/-- C10: after set_up_admin_socket followed by clean_up_admin_socket, only
the ten strings status, dump_ops_in_flight, ops, dump_historic_ops,
scrub_path, flush_path, session evict, session ls, flush journal and
force_readonly are unregistered; the registrations for export dir,
dump cache, osdmap barrier, get subtrees, dirfrag split, dirfrag merge and
dirfrag ls remain in place even though the hook object they reference has
been deleted. -/
theorem claim10_theorem :
    set_up_admin_socket ⟨[], false⟩ = some ⟨setUpCommands, true⟩
    ∧ (set_up_admin_socket ⟨[], false⟩).map clean_up_admin_socket =
        some ⟨["export dir", "dump cache", "osdmap barrier", "get subtrees",
               "dirfrag split", "dirfrag merge", "dirfrag ls"], false⟩ := by
  constructor <;> decide

/-- C7 counterexample: the command-message case of handle_core_message
(MDS.cc:2132-2134) executes no sender-type allow-set check: a command
message from a client is handled without any check. -/
theorem claim7_counterexample :
    ¬ ((handle_core_message ENTITY_CLIENT CoreMsgKind.command).allowChecked = true
        ∨ (handle_core_message ENTITY_CLIENT CoreMsgKind.command).handled = false) := by
  decide

/-- C7 amended: the monitor-map, cluster-map, monitor-command and
object-store-map cases of handle_core_message each check the sender's entity
type against their allow-set (mon; mon or mds; mon; mon or osd) and drop the
message exactly when the sender's type is outside it, but the command-message
case is handled with no sender-type check. -/
theorem claim7_theorem (p : Nat) :
    ((handle_core_message p CoreMsgKind.monMap).allowChecked = true
      ∧ ((handle_core_message p CoreMsgKind.monMap).droppedByAllow = true ↔
          Nat.land p ENTITY_MON = 0))
    ∧ ((handle_core_message p CoreMsgKind.mdsMap).allowChecked = true
      ∧ ((handle_core_message p CoreMsgKind.mdsMap).droppedByAllow = true ↔
          Nat.land p (Nat.lor ENTITY_MON ENTITY_MDS) = 0))
    ∧ ((handle_core_message p CoreMsgKind.monCommand).allowChecked = true
      ∧ ((handle_core_message p CoreMsgKind.monCommand).droppedByAllow = true ↔
          Nat.land p ENTITY_MON = 0))
    ∧ ((handle_core_message p CoreMsgKind.osdMap).allowChecked = true
      ∧ ((handle_core_message p CoreMsgKind.osdMap).droppedByAllow = true ↔
          Nat.land p (Nat.lor ENTITY_MON ENTITY_OSD) = 0))
    ∧ (handle_core_message p CoreMsgKind.command).allowChecked = false
    ∧ (handle_core_message p CoreMsgKind.command).handled = true := by
  refine ⟨⟨?_, ?_⟩, ⟨?_, ?_⟩, ⟨?_, ?_⟩, ⟨?_, ?_⟩, ?_, ?_⟩ <;>
    simp only [handle_core_message, allow_denies, beq_iff_eq] <;>
    first
      | rfl
      | (split <;> simp_all)

/-- C8: _command_flush_journal returns -EROFS whenever the cache is
read-only; with the cache writable, returns 0 with no journal operation
whenever the daemon is not active; and otherwise each awaited step (the two
safe-flush waits, trim_all and the header write) that completes with a
nonzero error returns that error together with a reason message, while a
nonzero segment-expiry wait fires the assert at MDS.cc:491 instead of
returning. -/
theorem claim8_theorem (e : FlushEnv) :
    (e.readonly = true → command_flush_journal e = some ⟨-EROFS, none, []⟩)
    ∧ (e.readonly = false → e.active = false →
        command_flush_journal e = some ⟨0, none, []⟩)
    ∧ (e.readonly = false → e.active = true →
        ((e.flushWaitResult ≠ 0 →
          command_flush_journal e =
            some ⟨e.flushWaitResult, some FlushReason.flushingJournal,
              [JournalOp.startNewSegment, JournalOp.flushOp]⟩)
        ∧ (e.flushWaitResult = 0 → e.clearWaitResult ≠ 0 →
          command_flush_journal e =
            some ⟨e.clearWaitResult, some FlushReason.flushingJournal,
              [JournalOp.startNewSegment, JournalOp.flushOp]⟩)
        ∧ (e.flushWaitResult = 0 → e.clearWaitResult = 0 → e.trimAllResult ≠ 0 →
          command_flush_journal e =
            some ⟨e.trimAllResult, some FlushReason.trimmingLog,
              [JournalOp.startNewSegment, JournalOp.flushOp, JournalOp.trimAllOp]⟩)
        ∧ (e.flushWaitResult = 0 → e.clearWaitResult = 0 → e.trimAllResult = 0 →
            e.hasExpiringSegments = true → e.expiryWaitResult ≠ 0 →
          command_flush_journal e = none)
        ∧ (e.flushWaitResult = 0 → e.clearWaitResult = 0 → e.trimAllResult = 0 →
            (e.hasExpiringSegments = false ∨ e.expiryWaitResult = 0) →
            e.writeHeadResult ≠ 0 →
          command_flush_journal e =
            some ⟨e.writeHeadResult, some FlushReason.writingHeader, allFlushOps⟩)
        ∧ (e.flushWaitResult = 0 → e.clearWaitResult = 0 → e.trimAllResult = 0 →
            (e.hasExpiringSegments = false ∨ e.expiryWaitResult = 0) →
            e.writeHeadResult = 0 →
          command_flush_journal e = some ⟨0, none, allFlushOps⟩))) := by
  refine ⟨?_, ?_, ?_⟩
  · intro h; simp [command_flush_journal, h]
  · intro h1 h2; simp [command_flush_journal, h1, h2]
  · intro h1 h2
    refine ⟨?_, ?_, ?_, ?_, ?_, ?_⟩
    · intro h3; simp [command_flush_journal, h1, h2, h3]
    · intro h3 h4; simp [command_flush_journal, h1, h2, h3, h4]
    · intro h3 h4 h5; simp [command_flush_journal, h1, h2, h3, h4, h5]
    · intro h3 h4 h5 h6 h7
      simp [command_flush_journal, h1, h2, h3, h4, h5, h6, h7]
    · intro h3 h4 h5 h6 h7
      cases h6 with
      | inl h6 =>
          simp [command_flush_journal, allFlushOps, h1, h2, h3, h4, h5, h6, h7]
      | inr h6 =>
          simp [command_flush_journal, allFlushOps, h1, h2, h3, h4, h5, h6, h7]
    · intro h3 h4 h5 h6 h7
      cases h6 with
      | inl h6 =>
          simp [command_flush_journal, allFlushOps, h1, h2, h3, h4, h5, h6, h7]
      | inr h6 =>
          simp [command_flush_journal, allFlushOps, h1, h2, h3, h4, h5, h6, h7]

/-- C8 witness: on a read-only cache the command returns -EROFS having
performed no journal operation. -/
theorem claim8_witness :
    command_flush_journal flushEnvRO = some ⟨-EROFS, none, []⟩ :=
  (claim8_theorem flushEnvRO).1 (by decide)
theorem standby_branch_whoami (s : MDSState) :
    (standby_branch s).st.whoami = s.whoami := by
  unfold standby_branch set_want_state request_state
  dsimp only
  split <;> rfl

theorem standby_branch_epoch (s : MDSState) :
    (standby_branch s).st.mdsmapEpoch = s.mdsmapEpoch := by
  unfold standby_branch set_want_state request_state
  dsimp only
  split <;> rfl

theorem standby_branch_stopping (s : MDSState) :
    (standby_branch s).st.stopping = s.stopping := by
  unfold standby_branch set_want_state request_state
  dsimp only
  split <;> rfl

theorem standby_branch_barrier (s : MDSState) :
    (standby_branch s).st.osdEpochBarrier = s.osdEpochBarrier := by
  unfold standby_branch set_want_state request_state
  dsimp only
  split <;> rfl

theorem standby_branch_outcome (s : MDSState) :
    (standby_branch s).outcome = Outcome.proceeded := by
  unfold standby_branch set_want_state request_state
  dsimp only
  split <;> rfl

theorem rank_none_branch_whoami (env : Env) (v : MDSMapView) (s : MDSState) :
    (rank_none_branch env v s).st.whoami = s.whoami := by
  unfold rank_none_branch set_want_state suicideStep
  dsimp only
  repeat' split
  all_goals rfl

theorem rank_none_branch_epoch (env : Env) (v : MDSMapView) (s : MDSState) :
    (rank_none_branch env v s).st.mdsmapEpoch = s.mdsmapEpoch := by
  unfold rank_none_branch set_want_state suicideStep
  dsimp only
  repeat' split
  all_goals rfl

theorem rank_none_branch_barrier (env : Env) (v : MDSMapView) (s : MDSState) :
    (rank_none_branch env v s).st.osdEpochBarrier = s.osdEpochBarrier := by
  unfold rank_none_branch set_want_state suicideStep
  dsimp only
  repeat' split
  all_goals rfl

theorem rank_none_branch_stopping_mono (env : Env) (v : MDSMapView)
    (s : MDSState) (h : s.stopping = true) :
    (rank_none_branch env v s).st.stopping = true := by
  unfold rank_none_branch set_want_state suicideStep
  dsimp only
  repeat' split
  all_goals simp_all

theorem rank_none_branch_outcome (env : Env) (v : MDSMapView) (s : MDSState)
    (hw1 : s.wantState ≠ STATE_STANDBY) (hw2 : s.wantState ≠ STATE_BOOT)
    (hstop : s.stopping = false) :
    (env.enforceUniqueName = true ∧ name_race_lost env v = true →
      (rank_none_branch env v s).outcome = Outcome.suicided)
    ∧ (¬(env.enforceUniqueName = true ∧ name_race_lost env v = true) →
      (rank_none_branch env v s).outcome = Outcome.respawned) := by
  unfold rank_none_branch
  rw [if_neg hw1, if_neg hw2]
  constructor
  · intro hr
    rw [if_pos hr, if_neg (by simp [hstop])]
  · intro hr
    rw [if_neg hr]

theorem fan_out_whoami (env : Env) (s : MDSState) (o n : Int) :
    (fan_out env s o n).st.whoami = s.whoami := by
  unfold fan_out finish_tail set_want_state
  dsimp only
  repeat' split
  all_goals rfl

theorem fan_out_epoch (env : Env) (s : MDSState) (o n : Int) :
    (fan_out env s o n).st.mdsmapEpoch = s.mdsmapEpoch := by
  unfold fan_out finish_tail set_want_state
  dsimp only
  repeat' split
  all_goals rfl

theorem fan_out_stopping (env : Env) (s : MDSState) (o n : Int) :
    (fan_out env s o n).st.stopping = s.stopping := by
  unfold fan_out finish_tail set_want_state
  dsimp only
  repeat' split
  all_goals rfl

theorem fan_out_barrier (env : Env) (s : MDSState) (o n : Int) :
    (fan_out env s o n).st.osdEpochBarrier = s.osdEpochBarrier
    ∨ (fan_out env s o n).st.osdEpochBarrier = env.osdEpoch := by
  unfold fan_out finish_tail set_want_state
  dsimp only
  repeat' split
  all_goals first
    | (left; rfl)
    | (right; rfl)

theorem fan_out_not_respawned (env : Env) (s : MDSState) (o n : Int) :
    (fan_out env s o n).outcome ≠ Outcome.respawned := by
  unfold fan_out finish_tail set_want_state
  dsimp only
  repeat' split
  all_goals simp

theorem handle_fresh_epoch (env : Env) (s : MDSState) (m : MMDSMapMsg) :
    (handle_fresh env s m).st.mdsmapEpoch = m.view.epoch := by
  unfold handle_fresh
  dsimp only
  repeat' split
  all_goals
    first
      | rfl
      | exact standby_branch_epoch _
      | exact rank_none_branch_epoch _ _ _
      | exact fan_out_epoch _ _ _ _

theorem handle_fresh_whoami (env : Env) (s : MDSState) (m : MMDSMapMsg) :
    (handle_fresh env s m).outcome = Outcome.respawned
    ∨ (handle_fresh env s m).st.whoami = s.whoami
    ∨ s.whoami = MDS_RANK_NONE := by
  unfold handle_fresh
  dsimp only
  repeat' split
  all_goals
    simp_all [standby_branch_whoami, rank_none_branch_whoami, fan_out_whoami]
  all_goals tauto

theorem handle_fresh_stopping_mono (env : Env) (s : MDSState) (m : MMDSMapMsg)
    (h : s.stopping = true) : (handle_fresh env s m).st.stopping = true := by
  unfold handle_fresh suicideStep
  dsimp only
  repeat' split
  all_goals
    first
      | exact h
      | rfl
      | (rw [standby_branch_stopping]; exact h)
      | exact rank_none_branch_stopping_mono _ _ _ h
      | (rw [fan_out_stopping]; exact h)

theorem handle_fresh_barrier (env : Env) (s : MDSState) (m : MMDSMapMsg) :
    (handle_fresh env s m).st.osdEpochBarrier = s.osdEpochBarrier
    ∨ (handle_fresh env s m).st.osdEpochBarrier = env.osdEpoch := by
  unfold handle_fresh suicideStep
  dsimp only
  repeat' split
  all_goals
    first
      | (left; rfl)
      | (left; exact standby_branch_barrier _)
      | (left; exact rank_none_branch_barrier _ _ _)
      | exact fan_out_barrier _ _ _ _

theorem handle_fresh_rank_transition (env : Env) (s : MDSState) (m : MMDSMapMsg)
    (hc : m.view.compatWritable = true) (hold : s.whoami ≠ MDS_RANK_NONE)
    (hne : computedRank m.view ≠ s.whoami) :
    (handle_fresh env s m).outcome = Outcome.respawned := by
  unfold handle_fresh
  dsimp only
  rw [if_neg (by simp [hc]), if_pos ⟨hne, hold⟩]

theorem handle_fresh_invalid_transition (env : Env) (s : MDSState)
    (m : MMDSMapMsg) (hc : m.view.compatWritable = true)
    (hrank : computedRank m.view = s.whoami)
    (hv : state_transition_valid (computedRank m.view) s.state m.view.myState = false) :
    (handle_fresh env s m).outcome = Outcome.respawned
    ∧ (handle_fresh env s m).calls = [] := by
  unfold handle_fresh
  dsimp only
  rw [if_neg (by simp [hc]), if_neg (by simp [hrank]), if_pos hv]
  exact ⟨rfl, rfl⟩

theorem handle_fresh_valid_transition (env : Env) (s : MDSState)
    (m : MMDSMapMsg) (hc : m.view.compatWritable = true)
    (hrank : computedRank m.view = s.whoami) (hold : s.whoami ≠ MDS_RANK_NONE)
    (hv : ¬(state_transition_valid (computedRank m.view) s.state m.view.myState = false)) :
    (handle_fresh env s m).outcome ≠ Outcome.respawned := by
  unfold handle_fresh
  dsimp only
  rw [if_neg (by simp [hc]), if_neg (by simp [hrank]), if_neg hv]
  have hwho : computedRank m.view ≠ MDS_RANK_NONE := by
    rw [hrank]; exact hold
  repeat' split
  all_goals
    first
      | exact fan_out_not_respawned _ _ _ _
      | (rw [standby_branch_outcome]; simp)
      | simp_all

theorem handle_fresh_rank_none (env : Env) (s : MDSState) (m : MMDSMapMsg)
    (hc : m.view.compatWritable = true)
    (hrn : computedRank m.view = MDS_RANK_NONE)
    (holdn : s.whoami = MDS_RANK_NONE)
    (hnsb : m.view.myState ≠ STATE_STANDBY)
    (hnrd : ¬(m.view.myState = STATE_STANDBY_REPLAY ∧ s.standbyType ≠ STATE_NULL ∧
              s.standbyType ≠ STATE_STANDBY_REPLAY))
    (hw1 : s.wantState ≠ STATE_STANDBY) (hw2 : s.wantState ≠ STATE_BOOT)
    (hstop : s.stopping = false) :
    (env.enforceUniqueName = true ∧ name_race_lost env m.view = true →
      (handle_fresh env s m).outcome = Outcome.suicided)
    ∧ (¬(env.enforceUniqueName = true ∧ name_race_lost env m.view = true) →
      (handle_fresh env s m).outcome = Outcome.respawned) := by
  unfold handle_fresh
  dsimp only
  rw [if_neg (by simp [hc]), if_neg (by simp [hrn, holdn]),
    if_neg (by rw [hrn]; simp [state_transition_valid]),
    if_neg hnsb, if_neg hnrd, if_pos hrn]
  exact rank_none_branch_outcome env m.view _ hw1 hw2 hstop

theorem ms_dispatch_stopped (s : MDSState) (m : DispatchMsg)
    (h : s.stopping = true) :
    ms_dispatch s m = ⟨s, false, false, false, false⟩ := by
  unfold ms_dispatch
  rw [if_pos h]

theorem asok_osdmap_barrier_stopping (s : MDSState) (t : Int) :
    (asok_osdmap_barrier s t).stopping = s.stopping := by
  unfold asok_osdmap_barrier set_osd_epoch_barrier
  split <;> rfl

/-- C1 counterexample: a cluster-map message whose epoch (4) is at or below
the installed epoch (5) is released, yet controller state does change: the
peer-freshness record for the sending MDS rank is updated before the
staleness check (MDS.cc:1538-1544 precede MDS.cc:1547). -/
theorem claim1_counterexample :
    m_stale.epoch ≤ baseState.mdsmapEpoch
    ∧ (handle_mds_map envA baseState m_stale).msgPut = true
    ∧ ¬ (peerGet (handle_mds_map envA baseState m_stale).st.peerMdsmapEpoch 2 =
          peerGet baseState.peerMdsmapEpoch 2) := by
  exact ⟨by decide, by decide, by decide⟩

/-- C1 amended: a cluster-map message whose epoch is at or below the
installed map's epoch is released, discarded, and changes no controller
state other than the peer-freshness epoch record (which is updated before
the staleness check when the sender is an MDS); and across any delivery the
installed epoch never decreases, changing only when the message's epoch
exceeds it, so the installed-epoch sequence is strictly increasing. -/
theorem claim1_theorem (env : Env) (s : MDSState) (m : MMDSMapMsg) :
    (m.epoch ≤ s.mdsmapEpoch →
      ((handle_mds_map env s m).msgPut = true
       ∧ (handle_mds_map env s m).outcome = Outcome.discarded
       ∧ (handle_mds_map env s m).calls = []
       ∧ (handle_mds_map env s m).st.mdsmapEpoch = s.mdsmapEpoch
       ∧ (handle_mds_map env s m).st.whoami = s.whoami
       ∧ (handle_mds_map env s m).st.state = s.state
       ∧ (handle_mds_map env s m).st.lastState = s.lastState
       ∧ (handle_mds_map env s m).st.incarnation = s.incarnation
       ∧ (handle_mds_map env s m).st.wantState = s.wantState
       ∧ (handle_mds_map env s m).st.standbyType = s.standbyType
       ∧ (handle_mds_map env s m).st.stopping = s.stopping
       ∧ (handle_mds_map env s m).st.osdEpochBarrier = s.osdEpochBarrier
       ∧ (handle_mds_map env s m).st.heartbeatResets = s.heartbeatResets))
    ∧ (msgWF m → s.mdsmapEpoch ≤ (handle_mds_map env s m).st.mdsmapEpoch)
    ∧ ((handle_mds_map env s m).st.mdsmapEpoch ≠ s.mdsmapEpoch →
        s.mdsmapEpoch < m.epoch) := by
  refine ⟨?_, ?_, ?_⟩
  · intro h
    unfold handle_mds_map
    dsimp only
    rw [if_pos (by rw [peerTrack_mdsmapEpoch]; exact h)]
    exact ⟨rfl, rfl, rfl, peerTrack_mdsmapEpoch s m, peerTrack_whoami s m,
      peerTrack_state s m, peerTrack_lastState s m, peerTrack_incarnation s m,
      peerTrack_wantState s m, peerTrack_standbyType s m, peerTrack_stopping s m,
      peerTrack_osdEpochBarrier s m, peerTrack_heartbeatResets s m⟩
  · intro hwf
    unfold handle_mds_map
    dsimp only
    by_cases h : m.epoch ≤ (peerTrack s m).mdsmapEpoch
    · rw [if_pos h]
      dsimp only
      rw [peerTrack_mdsmapEpoch]
    · rw [if_neg h]
      rw [handle_fresh_epoch]
      rw [peerTrack_mdsmapEpoch] at h
      unfold msgWF at hwf
      omega
  · intro hne
    by_cases h : m.epoch ≤ s.mdsmapEpoch
    · exfalso
      apply hne
      unfold handle_mds_map
      dsimp only
      rw [if_pos (by rw [peerTrack_mdsmapEpoch]; exact h)]
      dsimp only
      rw [peerTrack_mdsmapEpoch]
    · omega

/-- C1 witness: the stale message of the counterexample is indeed released
with the installed epoch unchanged, and the installed epoch does not
decrease. -/
theorem claim1_witness :
    (handle_mds_map envA baseState m_stale).msgPut = true
    ∧ (handle_mds_map envA baseState m_stale).st.mdsmapEpoch =
        baseState.mdsmapEpoch
    ∧ baseState.mdsmapEpoch ≤ (handle_mds_map envA baseState m_stale).st.mdsmapEpoch :=
  ⟨((claim1_theorem envA baseState m_stale).1 (by decide)).1,
   ((claim1_theorem envA baseState m_stale).1 (by decide)).2.2.2.1,
   (claim1_theorem envA baseState m_stale).2.1 rfl⟩

/-- C2: on a fresh, compat-writable map, if the daemon previously held a
rank and the rank computed from the new map differs, the outcome is respawn
(MDS.cc:1595-1600); and whenever the outcome is not respawn, the daemon's
rank after the call equals the old rank or the old rank was none — the rank
never changes to a different value while the process continues running. -/
theorem claim2_theorem (env : Env) (s : MDSState) (m : MMDSMapMsg) :
    (s.mdsmapEpoch < m.epoch → m.view.compatWritable = true →
      s.whoami ≠ MDS_RANK_NONE → computedRank m.view ≠ s.whoami →
      (handle_mds_map env s m).outcome = Outcome.respawned)
    ∧ ((handle_mds_map env s m).outcome ≠ Outcome.respawned →
        ((handle_mds_map env s m).st.whoami = s.whoami
          ∨ s.whoami = MDS_RANK_NONE)) := by
  constructor
  · intro hf hc hold hne
    unfold handle_mds_map
    dsimp only
    rw [if_neg (by rw [peerTrack_mdsmapEpoch]; omega)]
    exact handle_fresh_rank_transition env _ m hc
      (by rw [peerTrack_whoami]; exact hold)
      (by rw [peerTrack_whoami]; exact hne)
  · intro hnr
    unfold handle_mds_map at hnr ⊢
    dsimp only at hnr ⊢
    by_cases h : m.epoch ≤ (peerTrack s m).mdsmapEpoch
    · rw [if_pos h]
      dsimp only
      left
      exact peerTrack_whoami s m
    · rw [if_neg h] at hnr ⊢
      rcases handle_fresh_whoami env (peerTrack s m) m with ho | hw | hn
      · exact absurd ho hnr
      · left
        rw [hw, peerTrack_whoami]
      · right
        rw [← peerTrack_whoami s m]
        exact hn

/-- C2 witness: a map moving this daemon from rank 0 to rank 1 causes
respawn, and a delivery that does not respawn leaves the rank unchanged. -/
theorem claim2_witness :
    (handle_mds_map envA s_rank0 m_rankchange).outcome = Outcome.respawned
    ∧ ((handle_mds_map envA s_rank0 m_stale).st.whoami = s_rank0.whoami
        ∨ s_rank0.whoami = MDS_RANK_NONE) :=
  ⟨(claim2_theorem envA s_rank0 m_rankchange).1 (by decide) (by decide)
      (by decide) (by decide),
   (claim2_theorem envA s_rank0 m_stale).2 (by decide)⟩

/-- C3: on a fresh, compat-writable map that keeps this daemon's held rank
and changes its state, the outcome is respawn exactly when
state_transition_valid rejects the transition (replay only to resolve or
reconnect; rejoin only to active, clientreplay or stopped; a state in
[reconnect, active) only to oldstate+1; anything else unconstrained), and on
a rejected transition no fan-out call — in particular not active_start — is
issued. -/
theorem claim3_theorem (env : Env) (s : MDSState) (m : MMDSMapMsg)
    (hf : s.mdsmapEpoch < m.epoch) (hc : m.view.compatWritable = true)
    (hrank : computedRank m.view = s.whoami) (hold : s.whoami ≠ MDS_RANK_NONE)
    (hch : m.view.myState ≠ s.state) :
    ((handle_mds_map env s m).outcome = Outcome.respawned ↔
      state_transition_valid s.whoami s.state m.view.myState = false)
    ∧ (state_transition_valid s.whoami s.state m.view.myState = false →
        (handle_mds_map env s m).calls = []
        ∧ FanCall.activeStart ∉ (handle_mds_map env s m).calls) := by
  have hrank2 : computedRank m.view = (peerTrack s m).whoami := by
    rw [peerTrack_whoami]; exact hrank
  have hold2 : (peerTrack s m).whoami ≠ MDS_RANK_NONE := by
    rw [peerTrack_whoami]; exact hold
  have hkey : state_transition_valid (computedRank m.view) (peerTrack s m).state
        m.view.myState
      = state_transition_valid s.whoami s.state m.view.myState := by
    rw [hrank, peerTrack_state]
  unfold handle_mds_map
  dsimp only
  rw [if_neg (by rw [peerTrack_mdsmapEpoch]; omega)]
  constructor
  · constructor
    · intro ho
      by_contra hv
      exact handle_fresh_valid_transition env (peerTrack s m) m hc hrank2 hold2
        (by rw [hkey]; exact hv) ho
    · intro hv
      exact (handle_fresh_invalid_transition env (peerTrack s m) m hc hrank2
        (by rw [hkey]; exact hv)).1
  · intro hv
    have h2 := (handle_fresh_invalid_transition env (peerTrack s m) m hc hrank2
      (by rw [hkey]; exact hv)).2
    refine ⟨h2, ?_⟩
    rw [h2]
    simp

/-- C3 witness: the spec's scenario S4 — with state replay, a map assigning
state active is an invalid transition; the outcome is respawn and
active_start is not dispatched. -/
theorem claim3_witness :
    (((handle_mds_map envA s_replay m_invalid).outcome = Outcome.respawned ↔
      state_transition_valid s_replay.whoami s_replay.state
        m_invalid.view.myState = false)
    ∧ (state_transition_valid s_replay.whoami s_replay.state
        m_invalid.view.myState = false →
        (handle_mds_map envA s_replay m_invalid).calls = []
        ∧ FanCall.activeStart ∉ (handle_mds_map envA s_replay m_invalid).calls)) :=
  claim3_theorem envA s_replay m_invalid (by decide) (by decide) (by decide)
    (by decide) (by decide)

/-- C4 counterexample: the `osdmap barrier` admin command assigns the given
target epoch without clamping, so with the barrier at 5 a command with
target_epoch 3 lowers it — the barrier is not non-decreasing across every
operation that writes it. -/
theorem claim4_counterexample :
    ¬ (s_barrier.osdEpochBarrier ≤
        (asok_osdmap_barrier s_barrier 3).osdEpochBarrier) := by
  decide

/-- C4 amended: the two writers assign rather than clamp — the admin command
(on a daemon holding a rank) sets the barrier to exactly the requested
target epoch, converted to a 32-bit epoch value, and handle_mds_map either
leaves the barrier unchanged or sets it to exactly the object-store client's
current map epoch; neither write enforces that the new value is at least the
old one, so the barrier can decrease. -/
theorem claim4_theorem (s : MDSState) (t : Int) (env : Env) (m : MMDSMapMsg) :
    (0 ≤ s.whoami →
      (asok_osdmap_barrier s t).osdEpochBarrier = epoch_t_of_int t)
    ∧ ((handle_mds_map env s m).st.osdEpochBarrier = s.osdEpochBarrier
        ∨ (handle_mds_map env s m).st.osdEpochBarrier = env.osdEpoch) := by
  constructor
  · intro h
    unfold asok_osdmap_barrier set_osd_epoch_barrier
    rw [if_neg (by omega)]
  · unfold handle_mds_map
    dsimp only
    split
    · left
      exact peerTrack_osdEpochBarrier s m
    · rcases handle_fresh_barrier env (peerTrack s m) m with h | h
      · left
        rw [h]
        exact peerTrack_osdEpochBarrier s m
      · right
        exact h

/-- C4 witness: on a daemon holding rank 0, the admin command sets the
barrier to exactly the requested epoch 3 (below the previous barrier 5). -/
theorem claim4_witness :
    (asok_osdmap_barrier s_barrier 3).osdEpochBarrier = epoch_t_of_int 3 :=
  (claim4_theorem s_barrier 3 envA m_stale).1 (by decide)

/-- C5: suicide asserts the stopping latch is clear on entry (it returns a
state exactly when the latch was clear, and fails its assert when the latch
is set), sets the latch and wanted=dne; a second entry through
handle_signal is blocked by the latch; and no modelled controller operation
ever clears the latch once set. -/
theorem claim5_theorem :
    (∀ s s2, suicide s = some s2 →
      s.stopping = false ∧ s2.stopping = true ∧ s2.wantState = STATE_DNE)
    ∧ (∀ s, s.stopping = true → suicide s = none)
    ∧ (∀ s, s.stopping = true → handle_signal s = s)
    ∧ (∀ s op s2, step s op = some s2 → s.stopping = true →
        s2.stopping = true) := by
  refine ⟨?_, ?_, ?_, ?_⟩
  · intro s s2 h
    unfold suicide at h
    by_cases hs : s.stopping = true
    · rw [if_pos hs] at h
      cases h
    · rw [if_neg hs] at h
      injection h with h2
      subst h2
      exact ⟨by simpa using hs, rfl, rfl⟩
  · intro s h
    unfold suicide
    rw [if_pos h]
  · intro s h
    unfold handle_signal
    rw [if_pos h]
  · intro s op s2 h hs
    cases op with
    | opSuicide =>
        simp only [step] at h
        unfold suicide at h
        rw [if_pos hs] at h
        cases h
    | opSignal =>
        simp only [step] at h
        unfold handle_signal at h
        rw [if_pos hs] at h
        injection h with h2
        subst h2
        exact hs
    | opDispatch m =>
        simp only [step] at h
        rw [ms_dispatch_stopped s m hs] at h
        injection h with h2
        subst h2
        exact hs
    | opMdsMap env m =>
        simp only [step] at h
        injection h with h2
        subst h2
        unfold handle_mds_map
        dsimp only
        split
        · rw [peerTrack_stopping]
          exact hs
        · exact handle_fresh_stopping_mono env _ m
            (by rw [peerTrack_stopping]; exact hs)
    | opAsokBarrier t =>
        simp only [step] at h
        injection h with h2
        subst h2
        rw [asok_osdmap_barrier_stopping]
        exact hs

/-- C5 witness: suicide from a clear latch sets the latch and wanted=dne; on
a latched state suicide's assert fires, handle_signal is blocked, and a
dispatch step preserves the latch. -/
theorem claim5_witness :
    (baseState.stopping = false ∧ (suicideStep baseState).stopping = true
      ∧ (suicideStep baseState).wantState = STATE_DNE)
    ∧ suicide s_stopping = none
    ∧ handle_signal s_stopping = s_stopping
    ∧ (ms_dispatch s_stopping m_disp).st.stopping = true :=
  ⟨claim5_theorem.1 baseState (suicideStep baseState) (by decide),
   claim5_theorem.2.1 s_stopping (by decide),
   claim5_theorem.2.2.1 s_stopping (by decide),
   claim5_theorem.2.2.2 s_stopping (Op.opDispatch m_disp)
     (ms_dispatch s_stopping m_disp).st (by decide) (by decide)⟩

/-- C6 counterexample: with the stopping latch set and wanted=dne, a
dispatched message neither resets the heartbeat nor is released — the
stopping check at MDS.cc:2067 precedes the heartbeat reset at MDS.cc:2071,
and the dne discard is never reached. -/
theorem claim6_counterexample :
    s_stopping.wantState = STATE_DNE
    ∧ ¬ ((ms_dispatch s_stopping m_disp).st.heartbeatResets =
          s_stopping.heartbeatResets + 1
        ∧ (ms_dispatch s_stopping m_disp).msgPut = true) := by
  exact ⟨by decide, by decide⟩

/-- C6 amended: on entry ms_dispatch first returns the message unhandled when
the stopping latch is set, with no heartbeat reset and no release; otherwise
it resets the heartbeat, and every message dispatched while the wanted state
is dne is released and forwarded neither to handle_core_message nor to the
rank-level dispatcher. -/
theorem claim6_theorem (s : MDSState) (m : DispatchMsg) :
    (s.stopping = true → ms_dispatch s m = ⟨s, false, false, false, false⟩)
    ∧ (s.stopping = false →
        (ms_dispatch s m).st.heartbeatResets = s.heartbeatResets + 1
        ∧ (s.wantState = STATE_DNE →
            ms_dispatch s m = ⟨heartbeat_reset s, true, true, false, false⟩)) := by
  constructor
  · intro h
    exact ms_dispatch_stopped s m h
  · intro h
    unfold ms_dispatch heartbeat_reset
    rw [if_neg (by simp [h])]
    dsimp only
    constructor
    · split
      · rfl
      · split <;> rfl
    · intro hd
      rw [if_pos hd]

/-- C6 witness: a serving daemon with wanted=dne resets the heartbeat, then
releases the message without forwarding it. -/
theorem claim6_witness :
    (ms_dispatch s_dne m_disp).st.heartbeatResets = s_dne.heartbeatResets + 1
    ∧ ms_dispatch s_dne m_disp = ⟨heartbeat_reset s_dne, true, true, false, false⟩ :=
  ⟨((claim6_theorem s_dne m_disp).2 (by decide)).1,
   ((claim6_theorem s_dne m_disp).2 (by decide)).2 (by decide)⟩

/-- C9: on a fresh, compat-writable map that leaves a previously rank-less
daemon with rank none (past the standby and standby-replay-redirect early
exits), when the wanted state is neither standby nor boot: if unique-name
enforcement is on and the map holds a same-name entry with a larger global
id, the outcome is suicide and not respawn; in every other such case the
outcome is respawn (MDS.cc:1663-1693). -/
theorem claim9_theorem (env : Env) (s : MDSState) (m : MMDSMapMsg)
    (hf : s.mdsmapEpoch < m.epoch) (hc : m.view.compatWritable = true)
    (hrn : computedRank m.view = MDS_RANK_NONE)
    (holdn : s.whoami = MDS_RANK_NONE)
    (hnsb : m.view.myState ≠ STATE_STANDBY)
    (hnrd : ¬(m.view.myState = STATE_STANDBY_REPLAY ∧ s.standbyType ≠ STATE_NULL ∧
              s.standbyType ≠ STATE_STANDBY_REPLAY))
    (hw1 : s.wantState ≠ STATE_STANDBY) (hw2 : s.wantState ≠ STATE_BOOT)
    (hstop : s.stopping = false) :
    (env.enforceUniqueName = true ∧ name_race_lost env m.view = true →
      (handle_mds_map env s m).outcome = Outcome.suicided
      ∧ (handle_mds_map env s m).outcome ≠ Outcome.respawned)
    ∧ (¬(env.enforceUniqueName = true ∧ name_race_lost env m.view = true) →
      (handle_mds_map env s m).outcome = Outcome.respawned) := by
  unfold handle_mds_map
  dsimp only
  rw [if_neg (by rw [peerTrack_mdsmapEpoch]; omega)]
  have hr := handle_fresh_rank_none env (peerTrack s m) m hc hrn
    (by rw [peerTrack_whoami]; exact holdn) hnsb
    (by rw [peerTrack_standbyType]; exact hnrd)
    (by rw [peerTrack_wantState]; exact hw1)
    (by rw [peerTrack_wantState]; exact hw2)
    (by rw [peerTrack_stopping]; exact hstop)
  refine ⟨fun h => ⟨hr.1 h, ?_⟩, hr.2⟩
  rw [hr.1 h]
  simp

/-- C9 witness: the spec's scenario S2 — this daemon (global id 100) is
dropped from the map while a same-name daemon with global id 200 is listed
and unique-name enforcement is on; the outcome is suicide, not respawn. -/
theorem claim9_witness :
    (handle_mds_map envA s_dne m_kicked).outcome = Outcome.suicided
    ∧ (handle_mds_map envA s_dne m_kicked).outcome ≠ Outcome.respawned :=
  (claim9_theorem envA s_dne m_kicked (by decide) (by decide) (by decide)
    (by decide) (by decide) (by decide) (by decide) (by decide) (by decide)).1
    ⟨by decide, by decide⟩
